import Mathlib

/-
  Verification of the speechd-wip audio delivery pipeline
  (src/modules/baratinoo.c together with the spd_audio.c audio-server code).

  Byte streams are modelled as lists of natural numbers (one entry per byte,
  values < 256 in practice); file descriptors carry their pending bytes as such
  a list.  Machine integers of the C code are modelled as Int (the values the
  claims exercise are far from any overflow boundary); fallible operations
  return Option or an explicit error code, mirroring the C return values.
-/

/-! ## Byte-level helpers for the Transport Protocol decoder (play_audio) -/

/-- Byte codes used by the protocol. -/
def byteCR : Nat := 13

def byteLF : Nat := 10

def byteNUL : Nat := 0

def byteQuestion : Nat := 63

def byteColon : Nat := 58

/-- The header read loop of play_audio: reads one byte at a time, substitutes
a question mark for an embedded NUL, and stops when the current byte is LF and
the previously stored byte is CR.  Returns the stored line (terminator
included) and the unread remainder of the stream, or none when the stream ends
(read returning 0 or less) before a CR LF was seen. -/
def readLine : List Nat → List Nat → Option (List Nat × List Nat)
  | [], _ => none
  | b :: rest, acc =>
      if b = byteLF ∧ acc.getLast? = some byteCR then
        some (acc ++ [byteLF], rest)
      else
        readLine rest (acc ++ [if b = byteNUL then byteQuestion else b])

/-- Split off the part of a byte list before the first colon, with the
remainder after the colon; none when the list has no colon. -/
def splitOnceColon : List Nat → Option (List Nat × List Nat)
  | [] => none
  | c :: rest =>
      if c = byteColon then some ([], rest)
      else
        match splitOnceColon rest with
        | none => none
        | some (tok, r) => some (c :: tok, r)

/-- g_strsplit with a token limit: at most the given number of tokens are
produced and the final token keeps the untouched remainder. -/
def gStrsplitAux : Nat → List Nat → List (List Nat)
  | 0, s => [s]
  | 1, s => [s]
  | n + 2, s =>
      match splitOnceColon s with
      | none => [s]
      | some (tok, rest) => tok :: gStrsplitAux (n + 1) rest

/-- g_strsplit(buf, ":", 5) as used on the header line: an empty string gives
no tokens, otherwise at most five colon-separated tokens. -/
def gStrsplit5 (s : List Nat) : List (List Nat) :=
  if s = [] then [] else gStrsplitAux 5 s

def isSpaceByte (c : Nat) : Bool := c = 32 || (9 ≤ c && c ≤ 13)

def isDigitByte (c : Nat) : Bool := 48 ≤ c && c ≤ 57

/-- Accumulate leading decimal digits, stopping at the first non-digit. -/
def digitsVal : List Nat → Nat → Nat
  | [], acc => acc
  | c :: rest, acc =>
      if isDigitByte c then digitsVal rest (acc * 10 + (c - 48)) else acc

/-- strtol(s, NULL, 10): skip leading whitespace, read an optional sign and
then leading decimal digits; a field with no digits yields 0. -/
def strtolDec (s : List Nat) : Int :=
  match s.dropWhile (fun c => isSpaceByte c) with
  | 45 :: rest => -(digitsVal rest 0 : Int)
  | 43 :: rest => (digitsVal rest 0 : Int)
  | t => (digitsVal t 0 : Int)

/-! ## Audio tracks and the decoder -/

/-- AudioTrack as filled in by play_audio from the wire header: all integer
fields are C ints, the samples field is the raw payload byte buffer. -/
structure AudioTrack where
  bits : Int
  num_channels : Int
  sample_rate : Int
  num_samples : Int
  samples : List Nat
deriving Repr, DecidableEq

/-- The ACK keep-alive line: the bytes of "ACK" followed by CR LF. -/
def ackLine : List Nat := [65, 67, 75, byteCR, byteLF]

/-- Outcome of one play_audio call: the int return value, the track (with its
wire format field) handed to spd_audio_play when play was reached, and the
bytes of the stream left unread. -/
structure PlayAudioOutcome where
  retval : Int
  played : Option (Int × AudioTrack)
  remaining : List Nat
deriving Repr, DecidableEq

/-- play_audio(fd): read a CR LF-terminated header line byte by byte (failing
with -1 if the peer closes first), accept a literal ACK line as a no-op,
otherwise split the header into five colon-separated fields, parse them with
strtol, reject a nonpositive sample count, read num_samples * 2 payload bytes
(failing with -1 on a short read) and hand the track to spd_audio_play.  The
spdPlayOk argument abstracts whether spd_audio_play reports success for the
chunk (its device/backend outcome). -/
def play_audio (spdPlayOk : Bool) (input : List Nat) : PlayAudioOutcome :=
  match readLine input [] with
  | none => ⟨-1, none, []⟩
  | some (line, rest) =>
      if line = ackLine then ⟨0, none, rest⟩
      else
        let fields := gStrsplit5 line
        if fields.length < 5 then ⟨-1, none, rest⟩
        else
          let format := strtolDec (fields.getD 0 [])
          let bits := strtolDec (fields.getD 1 [])
          let num_channels := strtolDec (fields.getD 2 [])
          let sample_rate := strtolDec (fields.getD 3 [])
          let num_samples := strtolDec (fields.getD 4 [])
          if num_samples ≤ 0 then ⟨-1, none, rest⟩
          else
            let need := num_samples.toNat * 2
            let payload := rest.take need
            if payload.length ≠ need then ⟨-1, none, rest.drop need⟩
            else
              let track : AudioTrack :=
                ⟨bits, num_channels, sample_rate, num_samples, payload⟩
              ⟨if spdPlayOk then 0 else -1, some (format, track), rest.drop need⟩

/-! ## spd_audio_play and the byte-swapping loop -/

/-- One open audio device (AudioID): its native sample format and the stored
volume. -/
structure AudioID where
  format : Int
  volume : Int
deriving Repr, DecidableEq

/-- The in-place byte-swapping loop of spd_audio_play, with the byte budget
out_end - out_ptr as first argument: while two bytes of budget remain, swap a
pair and advance by two. -/
def swapLoopBytes : Nat → List Nat → List Nat
  | 0, buf => buf
  | Nat.succ k, buf =>
      match buf with
      | a :: b :: rest => b :: a :: swapLoopBytes (k - 1) rest
      | _ => buf

/-- The byte count the swap loop of spd_audio_play covers:
track.num_samples * 2 * track.num_channels. -/
def swapLoopByteBound (num_samples num_channels : Int) : Int :=
  num_samples * 2 * num_channels

/-- The payload allocation of play_audio:
g_malloc0_n(track.num_samples, sizeof(signed short)) bytes. -/
def playAudioAllocBytes (num_samples : Int) : Int :=
  num_samples * 2

/-- spd_audio_play(id, track, format): with no device (or no play capability)
return -1 and leave the buffer alone; otherwise swap byte pairs over the loop
bound exactly when the declared format differs from the native format of the
device, then hand the buffer to the backend play, whose int result is the
playRet argument. Returns the int result and the buffer the backend receives. -/
def spd_audio_play (id : Option AudioID) (track : AudioTrack) (format : Int)
    (playRet : Int) : Int × List Nat :=
  match id with
  | none => (-1, track.samples)
  | some a =>
      let buf :=
        if format ≠ a.format then
          swapLoopBytes (swapLoopByteBound track.num_samples track.num_channels).toNat
            track.samples
        else track.samples
      (playRet, buf)

/-- Reference pairwise swap: exchanges the two bytes of every complete
2-byte sample once. -/
def swapPairs : List Nat → List Nat
  | a :: b :: rest => b :: a :: swapPairs rest
  | l => l

/-! ## spd_audio_set_volume -/

/-- spd_audio_set_volume(id, volume): out-of-range volume is rejected before
the handle is examined; a NULL handle is rejected; otherwise the volume is
stored. Returns the int result together with the (possibly updated) handle. -/
def spd_audio_set_volume (id : Option AudioID) (volume : Int) :
    Int × Option AudioID :=
  if volume > 100 ∨ volume < -100 then (-1, id)
  else
    match id with
    | none => (-1, none)
    | some a => (0, some { a with volume := volume })

/-! ## The audio server event loop handlers -/

/-- One ConnectionRecord (TAudioFDSetElement): the socket descriptor.  The
event source and label do not affect the claims and are elided. -/
structure TAudioFDSetElement where
  fd : Nat
deriving Repr, DecidableEq

/-- The audio server state visible to the claims: the connection set
(module_data_list, a queue of records) and the log of close() calls on
descriptors, in order. -/
structure AudioServerState where
  module_data_list : List TAudioFDSetElement
  closed : List Nat
deriving Repr, DecidableEq

/-- free_fd_set(fd_set): closes the descriptor of the record (exactly one close()
call) and frees the record and its source. -/
def free_fd_set (st : AudioServerState) (e : TAudioFDSetElement) : AudioServerState :=
  { st with closed := st.closed ++ [e.fd] }

/-- audio_process_incoming(fd, ..., fd_set) on a readability event: when
FIONREAD reports zero bytes the record is removed from module_data_list and
destroyed through free_fd_set and the callback returns FALSE (detaching the
source); otherwise play_audio runs on the stream, its failure is only logged,
and the callback returns TRUE with the state untouched. -/
def audio_process_incoming (spdPlayOk : Bool) (st : AudioServerState)
    (e : TAudioFDSetElement) (nread : Nat) (stream : List Nat) :
    Bool × AudioServerState :=
  if nread = 0 then
    (false, free_fd_set { st with module_data_list := st.module_data_list.erase e } e)
  else
    let _decode := play_audio spdPlayOk stream
    (true, st)

/-! ## The Baratinoo synthesis session -/

/-- The session state of the baratinoo module: the pending input text buffer
(at most one in flight), the stop and close request flags, and the count of
the counting semaphore that wakes the engine thread. -/
structure BaratinooState where
  text_buffer : Option (List Nat)
  stop_requested : Bool
  close_requested : Bool
  semCount : Nat
deriving Repr, DecidableEq

/-- baratinoo_speaking(): a message is being spoken exactly when an input
text buffer is pending. -/
def baratinoo_speaking (st : BaratinooState) : Bool :=
  st.text_buffer.isSome

/-- module_speak(data, bytes, msgtype): rejected with 0 while already
speaking; otherwise clears the stop flag, allocates and initializes the input
buffer (allocOk and initOk abstract the two fallible engine calls, whose
failure paths return 0 with no buffer pending), posts the semaphore and
returns bytes. -/
def module_speak (st : BaratinooState) (data : List Nat) (bytes : Nat)
    (allocOk initOk : Bool) : Int × BaratinooState :=
  if baratinoo_speaking st then (0, st)
  else
    let st1 := { st with stop_requested := false }
    if allocOk = false then (0, st1)
    else if initOk = false then (0, st1)
    else ((bytes : Int),
          { st1 with text_buffer := some data, semCount := st1.semCount + 1 })

/-- module_stop(): when no stop is pending, set the stop flag and post the
semaphore once; when a stop is already pending, do nothing.  Returns 0. -/
def module_stop (st : BaratinooState) : Int × BaratinooState :=
  if st.stop_requested = false then
    (0, { st with stop_requested := true, semCount := st.semCount + 1 })
  else
    (0, st)

/-- baratinoo_output_signal_cb(privateData, address, length): while a stop is
pending the chunk is dropped and 0 is returned; otherwise the buffer is
wrapped as a mono 16-bit 16 kHz track, handed to module_tts_output (recorded
as the second component) and 0 is returned. -/
def baratinoo_output_signal_cb (stop_requested : Bool) (address : List Nat)
    (length : Nat) : Int × Option AudioTrack :=
  if stop_requested then (0, none)
  else
    (0, some { bits := 16
             , num_channels := 1
             , sample_rate := 16000
             , num_samples := ((length / 2 : Nat) : Int)
             , samples := address.take length })

/-! ## Helper lemmas -/

/-- A stream accepted by the header read loop is nonempty. -/
theorem readLine_ne_nil {input : List Nat} {p : List Nat × List Nat}
    (h : readLine input [] = some p) : input ≠ [] := by
  intro he
  subst he
  simp [readLine] at h

/-- The header line of the ACK keep-alive reads back as itself. -/
theorem readLine_ack (rest : List Nat) :
    readLine (ackLine ++ rest) [] = some (ackLine, rest) := rfl

/-- Once the header line is read, is not the ACK keep-alive and splits into
five fields, play_audio reduces to the sample-count check, the payload read
and the hand-off to spd_audio_play. -/
theorem play_audio_header_branch (ok : Bool) (input line rest : List Nat)
    (hline : readLine input [] = some (line, rest))
    (hack : line ≠ ackLine)
    (hfields : ¬ (gStrsplit5 line).length < 5) :
    play_audio ok input =
      if strtolDec ((gStrsplit5 line).getD 4 []) ≤ 0 then ⟨-1, none, rest⟩
      else if (rest.take ((strtolDec ((gStrsplit5 line).getD 4 [])).toNat * 2)).length ≠
          (strtolDec ((gStrsplit5 line).getD 4 [])).toNat * 2 then
        ⟨-1, none, rest.drop ((strtolDec ((gStrsplit5 line).getD 4 [])).toNat * 2)⟩
      else
        ⟨if ok then 0 else -1,
         some (strtolDec ((gStrsplit5 line).getD 0 []),
               ⟨strtolDec ((gStrsplit5 line).getD 1 []),
                strtolDec ((gStrsplit5 line).getD 2 []),
                strtolDec ((gStrsplit5 line).getD 3 []),
                strtolDec ((gStrsplit5 line).getD 4 []),
                rest.take ((strtolDec ((gStrsplit5 line).getD 4 [])).toNat * 2)⟩),
         rest.drop ((strtolDec ((gStrsplit5 line).getD 4 [])).toNat * 2)⟩ := by
  unfold play_audio
  rw [hline]
  dsimp only
  rw [if_neg hack, if_neg hfields]

/-- A readability event reporting zero bytes removes the record from the
connection set and closes its descriptor exactly once. -/
theorem disconnect_event_cleanup (ok : Bool) (st : AudioServerState)
    (e : TAudioFDSetElement) (stream : List Nat)
    (hcount : st.module_data_list.count e = 1)
    (hnc : e.fd ∉ st.closed) :
    (audio_process_incoming ok st e 0 stream).1 = false ∧
    e ∉ (audio_process_incoming ok st e 0 stream).2.module_data_list ∧
    (audio_process_incoming ok st e 0 stream).2.closed.count e.fd = 1 := by
  refine ⟨rfl, ?_, ?_⟩
  · dsimp [audio_process_incoming, free_fd_set]
    have h : (st.module_data_list.erase e).count e = 0 := by
      rw [List.count_erase_self, hcount]
    exact List.count_eq_zero.mp h
  · dsimp [audio_process_incoming, free_fd_set]
    have h0 : st.closed.count e.fd = 0 := List.count_eq_zero.mpr hnc
    simp [List.count_append, h0]

/-! ## Claim theorems -/

/-- C7: a header line consisting of literally ACK followed by CR LF is
accepted by the decoder as a keep-alive no-op: play_audio returns 0, no
payload byte is read (the stream after the line is left untouched) and
spd_audio_play is never invoked. -/
theorem play_audio_ack_keepalive (ok : Bool) (rest : List Nat) :
    play_audio ok (ackLine ++ rest) = ⟨0, none, rest⟩ := rfl

/-- C10: a header whose sample-count field parses to zero or a negative
integer (a non-numeric field parses to 0 under strtol) is a decode error:
play_audio returns -1 without reading any payload byte and without invoking
spd_audio_play. -/
theorem play_audio_rejects_nonpositive_sample_count (ok : Bool)
    (input line rest : List Nat)
    (hline : readLine input [] = some (line, rest))
    (hack : line ≠ ackLine)
    (hfields : ¬ (gStrsplit5 line).length < 5)
    (hn : strtolDec ((gStrsplit5 line).getD 4 []) ≤ 0) :
    play_audio ok input = ⟨-1, none, rest⟩ := by
  rw [play_audio_header_branch ok input line rest hline hack hfields, if_pos hn]

/-- C10 witness: the header 0:16:1:16000:abc followed by CR LF and two
pending payload bytes; strtol parses the non-numeric field abc as 0 and the
decode fails with -1, leaving the two bytes unread and playing nothing. -/
theorem play_audio_rejects_nonpositive_sample_count_witness :
    readLine ([48, 58, 49, 54, 58, 49, 58, 49, 54, 48, 48, 48, 58, 97, 98, 99, 13, 10] ++ [1, 2]) [] =
      some ([48, 58, 49, 54, 58, 49, 58, 49, 54, 48, 48, 48, 58, 97, 98, 99, 13, 10], [1, 2]) ∧
    [48, 58, 49, 54, 58, 49, 58, 49, 54, 48, 48, 48, 58, 97, 98, 99, 13, 10] ≠ ackLine ∧
    ¬ (gStrsplit5 [48, 58, 49, 54, 58, 49, 58, 49, 54, 48, 48, 48, 58, 97, 98, 99, 13, 10]).length < 5 ∧
    strtolDec ((gStrsplit5 [48, 58, 49, 54, 58, 49, 58, 49, 54, 48, 48, 48, 58, 97, 98, 99, 13, 10]).getD 4 []) ≤ 0 ∧
    play_audio true ([48, 58, 49, 54, 58, 49, 58, 49, 54, 48, 48, 48, 58, 97, 98, 99, 13, 10] ++ [1, 2]) =
      ⟨-1, none, [1, 2]⟩ :=
  ⟨by decide, by decide, by decide, by decide,
   play_audio_rejects_nonpositive_sample_count true
     ([48, 58, 49, 54, 58, 49, 58, 49, 54, 48, 48, 48, 58, 97, 98, 99, 13, 10] ++ [1, 2])
     [48, 58, 49, 54, 58, 49, 58, 49, 54, 48, 48, 48, 58, 97, 98, 99, 13, 10] [1, 2]
     (by decide) (by decide) (by decide) (by decide)⟩

/-- C4: spd_audio_set_volume rejects a value outside the interval from -100
to 100 with -1 and leaves the stored volume unchanged; any value inside the
interval on a valid handle succeeds with 0 and is stored. -/
theorem spd_audio_set_volume_bounds (id : Option AudioID) (v : Int) :
    ((v > 100 ∨ v < -100) → spd_audio_set_volume id v = (-1, id)) ∧
    (¬ (v > 100 ∨ v < -100) → ∀ a : AudioID, id = some a →
       spd_audio_set_volume id v = (0, some { a with volume := v })) := by
  constructor
  · intro h
    simp only [spd_audio_set_volume, if_pos h]
  · intro h a ha
    subst ha
    simp only [spd_audio_set_volume, if_neg h]

/-- C4 witness: on a handle with stored volume 50, setting 101 fails with -1
and keeps 50, while setting 100 succeeds with 0 and stores 100. -/
theorem spd_audio_set_volume_bounds_witness :
    ((101 : Int) > 100 ∨ (101 : Int) < -100) ∧
    spd_audio_set_volume (some ⟨0, 50⟩) 101 = (-1, some ⟨0, 50⟩) ∧
    ¬ ((100 : Int) > 100 ∨ (100 : Int) < -100) ∧
    spd_audio_set_volume (some ⟨0, 50⟩) 100 = (0, some ⟨0, 100⟩) :=
  ⟨by decide, (spd_audio_set_volume_bounds (some ⟨0, 50⟩) 101).1 (by decide),
   by decide, (spd_audio_set_volume_bounds (some ⟨0, 50⟩) 100).2 (by decide) ⟨0, 50⟩ rfl⟩

/-- C5: module_speak invoked while a message is being spoken (an input text
buffer is pending) returns 0, queues nothing and leaves the whole session
state, in particular the pending buffer and the stop-requested flag,
unchanged. -/
theorem module_speak_busy_rejection (st : BaratinooState) (data : List Nat)
    (bytes : Nat) (allocOk initOk : Bool)
    (h : baratinoo_speaking st = true) :
    module_speak st data bytes allocOk initOk = (0, st) := by
  simp only [module_speak, h, if_pos]

/-- C5 witness: with a buffer pending, a stop flag left set and semaphore
count 2, a module_speak of one byte is rejected with 0 and the state is
untouched. -/
theorem module_speak_busy_rejection_witness :
    baratinoo_speaking ⟨some [104], true, false, 2⟩ = true ∧
    module_speak ⟨some [104], true, false, 2⟩ [120] 1 true true =
      (0, ⟨some [104], true, false, 2⟩) :=
  ⟨rfl, module_speak_busy_rejection ⟨some [104], true, false, 2⟩ [120] 1 true true rfl⟩

/-- C6: module_stop always returns 0; with the stop flag already set it is a
no-op (the semaphore is not posted again), otherwise it sets the flag and
posts the semaphore exactly once; a second call in succession leaves the
state of the first call unchanged. -/
theorem module_stop_idempotent (st : BaratinooState) :
    (module_stop st).1 = 0 ∧
    (st.stop_requested = true → module_stop st = (0, st)) ∧
    (st.stop_requested = false →
       (module_stop st).2 =
         { st with stop_requested := true, semCount := st.semCount + 1 }) ∧
    module_stop (module_stop st).2 = (0, (module_stop st).2) := by
  cases hv : st.stop_requested with
  | false =>
      refine ⟨by simp [module_stop, hv], ?_, ?_, ?_⟩
      · intro h'; exact Bool.noConfusion h'
      · intro _; simp [module_stop, hv]
      · simp [module_stop, hv]
  | true =>
      refine ⟨by simp [module_stop, hv], ?_, ?_, ?_⟩
      · intro _; simp [module_stop, hv]
      · intro h'; exact Bool.noConfusion h'
      · simp [module_stop, hv]

/-- C6 witness: with the flag clear and semaphore count 4, one call sets the
flag and posts once; the second call returns 0 and changes nothing; with the
flag already set, the call is a no-op. -/
theorem module_stop_idempotent_witness :
    (module_stop ⟨none, false, false, 4⟩).1 = 0 ∧
    ((⟨none, true, false, 4⟩ : BaratinooState).stop_requested = true ∧
     module_stop ⟨none, true, false, 4⟩ = (0, ⟨none, true, false, 4⟩)) ∧
    ((⟨none, false, false, 4⟩ : BaratinooState).stop_requested = false ∧
     (module_stop ⟨none, false, false, 4⟩).2 = ⟨none, true, false, 5⟩) ∧
    module_stop (module_stop ⟨none, false, false, 4⟩).2 =
      (0, (module_stop ⟨none, false, false, 4⟩).2) :=
  ⟨(module_stop_idempotent ⟨none, false, false, 4⟩).1,
   ⟨rfl, (module_stop_idempotent ⟨none, true, false, 4⟩).2.1 rfl⟩,
   ⟨rfl, (module_stop_idempotent ⟨none, false, false, 4⟩).2.2.1 rfl⟩,
   (module_stop_idempotent ⟨none, false, false, 4⟩).2.2.2⟩

/-- C8 counterexample: the output callback returns 0 both when a pending stop
makes it discard the chunk and when it forwards the chunk to
module_tts_output, so the value returned on the discard path is not distinct
from the value returned on the playback path. -/
theorem output_cb_return_value_not_distinct :
    (baratinoo_output_signal_cb true [1, 2] 2).2 = none ∧
    (baratinoo_output_signal_cb false [1, 2] 2).2 ≠ none ∧
    (baratinoo_output_signal_cb true [1, 2] 2).1 =
      (baratinoo_output_signal_cb false [1, 2] 2).1 := by
  refine ⟨rfl, ?_, rfl⟩
  intro h
  simp [baratinoo_output_signal_cb] at h

/-- C8 (amended): while a stop is pending the output callback discards the
chunk (module_tts_output is never called) and returns 0; the same value 0 is
also returned when the chunk is forwarded, so the drop is signalled only by
the missing module_tts_output call, not by a distinct return value. -/
theorem baratinoo_output_signal_cb_stop_drops (address : List Nat) (length : Nat) :
    baratinoo_output_signal_cb true address length = (0, none) ∧
    (baratinoo_output_signal_cb false address length).1 = 0 := by
  constructor
  · rfl
  · simp [baratinoo_output_signal_cb]

/-- Running the swap loop with a byte budget equal to the buffer length is
the pairwise swap of the whole buffer. -/
theorem swapLoopBytes_self : ∀ l : List Nat, swapLoopBytes l.length l = swapPairs l
  | [] => rfl
  | [_] => rfl
  | a :: b :: rest => by
      show swapLoopBytes (rest.length + 1 + 1) (a :: b :: rest) = _
      simp only [swapLoopBytes, swapPairs, Nat.add_sub_cancel]
      rw [swapLoopBytes_self rest]

/-- The pairwise swap exchanges the two bytes of each complete pair exactly
once. -/
theorem swapPairs_get? : ∀ (l : List Nat) (i : Nat), 2 * i + 1 < l.length →
    (swapPairs l).get? (2 * i) = l.get? (2 * i + 1) ∧
    (swapPairs l).get? (2 * i + 1) = l.get? (2 * i)
  | [], i, h => by simp at h
  | [_], i, h => by
      simp only [List.length_singleton] at h
      omega
  | _ :: _ :: _, 0, _ => ⟨rfl, rfl⟩
  | a :: b :: rest, i + 1, h => by
      have hr : 2 * i + 1 < rest.length := by
        simp only [List.length_cons] at h
        omega
      have ih := swapPairs_get? rest i hr
      exact ih

/-- C2: spd_audio_play applies byte-swapping to a chunk exactly when its
declared format differs from the native format of the device: in that case
each 2-byte sample of the buffer handed to the backend play is the swap of
the corresponding sample of the chunk, each swapped exactly once, while
matching formats pass the sample buffer to play unchanged. -/
theorem spd_audio_play_endian_spec (a : AudioID) (track : AudioTrack)
    (format playRet : Int)
    (hlen : track.samples.length =
      (swapLoopByteBound track.num_samples track.num_channels).toNat) :
    (format ≠ a.format →
       ∀ i : Nat, 2 * i + 1 < track.samples.length →
         ((spd_audio_play (some a) track format playRet).2.get? (2 * i) =
            track.samples.get? (2 * i + 1) ∧
          (spd_audio_play (some a) track format playRet).2.get? (2 * i + 1) =
            track.samples.get? (2 * i))) ∧
    (format = a.format →
       (spd_audio_play (some a) track format playRet).2 = track.samples) := by
  constructor
  · intro hne i hi
    have h2 : (spd_audio_play (some a) track format playRet).2 =
        swapPairs track.samples := by
      simp only [spd_audio_play, if_pos hne]
      rw [← hlen, swapLoopBytes_self]
    rw [h2]
    exact swapPairs_get? track.samples i hi
  · intro heq
    simp [spd_audio_play, heq]

/-- C2 witness: a two-sample chunk with bytes 1 2 3 4; playing it on a device
of a different format hands 2 1 4 3 to the backend (each sample swapped
once), playing it on a matching device hands it over unchanged. -/
theorem spd_audio_play_endian_spec_witness :
    (⟨16, 1, 16000, 2, [1, 2, 3, 4]⟩ : AudioTrack).samples.length =
      (swapLoopByteBound (⟨16, 1, 16000, 2, [1, 2, 3, 4]⟩ : AudioTrack).num_samples
        (⟨16, 1, 16000, 2, [1, 2, 3, 4]⟩ : AudioTrack).num_channels).toNat ∧
    (spd_audio_play (some ⟨0, 85⟩) ⟨16, 1, 16000, 2, [1, 2, 3, 4]⟩ 1 0).2.get? 0 =
      (⟨16, 1, 16000, 2, [1, 2, 3, 4]⟩ : AudioTrack).samples.get? 1 ∧
    (spd_audio_play (some ⟨0, 85⟩) ⟨16, 1, 16000, 2, [1, 2, 3, 4]⟩ 0 0).2 =
      (⟨16, 1, 16000, 2, [1, 2, 3, 4]⟩ : AudioTrack).samples :=
  ⟨by decide,
   (((spd_audio_play_endian_spec ⟨0, 85⟩ ⟨16, 1, 16000, 2, [1, 2, 3, 4]⟩ 1 0
        (by decide)).1 (by decide) 0 (by decide)).1),
   ((spd_audio_play_endian_spec ⟨0, 85⟩ ⟨16, 1, 16000, 2, [1, 2, 3, 4]⟩ 0 0
        (by decide)).2 rfl)⟩

/-- C3: on a readability event for an accepted connection, zero readable
bytes remove the ConnectionRecord from the connection set and close its
descriptor exactly once, while readable bytes whose decode fails leave the
record in the set with the state untouched (the failure is only logged). -/
theorem audio_process_incoming_disconnect_vs_decode_failure (ok : Bool)
    (st : AudioServerState) (e : TAudioFDSetElement) (nread : Nat)
    (stream : List Nat)
    (hcount : st.module_data_list.count e = 1)
    (hnc : e.fd ∉ st.closed) :
    (nread = 0 →
       (audio_process_incoming ok st e nread stream).1 = false ∧
       e ∉ (audio_process_incoming ok st e nread stream).2.module_data_list ∧
       (audio_process_incoming ok st e nread stream).2.closed.count e.fd = 1) ∧
    (nread ≠ 0 → (play_audio ok stream).retval = -1 →
       audio_process_incoming ok st e nread stream = (true, st)) := by
  constructor
  · intro h0
    subst h0
    exact disconnect_event_cleanup ok st e stream hcount hnc
  · intro hne _
    simp only [audio_process_incoming, if_neg hne]

/-- C3 witness: a connection set holding only descriptor 3 with nothing
closed yet: the zero-byte event removes the record and closes 3 exactly once,
and an event with 2 readable bytes whose decode fails (a bare CR LF header
has too few fields) keeps the state untouched. -/
theorem audio_process_incoming_disconnect_vs_decode_failure_witness :
    (([⟨3⟩] : List TAudioFDSetElement).count ⟨3⟩ = 1) ∧
    ((3 : Nat) ∉ ([] : List Nat)) ∧
    ((audio_process_incoming true ⟨[⟨3⟩], []⟩ ⟨3⟩ 0 []).1 = false ∧
     (⟨3⟩ : TAudioFDSetElement) ∉
       (audio_process_incoming true ⟨[⟨3⟩], []⟩ ⟨3⟩ 0 []).2.module_data_list ∧
     (audio_process_incoming true ⟨[⟨3⟩], []⟩ ⟨3⟩ 0 []).2.closed.count 3 = 1) ∧
    ((play_audio true [13, 10]).retval = -1 ∧
     audio_process_incoming true ⟨[⟨3⟩], []⟩ ⟨3⟩ 2 [13, 10] = (true, ⟨[⟨3⟩], []⟩)) :=
  ⟨by decide, by decide,
   (audio_process_incoming_disconnect_vs_decode_failure true ⟨[⟨3⟩], []⟩ ⟨3⟩ 0 []
      (by decide) (by decide)).1 rfl,
   by decide,
   (audio_process_incoming_disconnect_vs_decode_failure true ⟨[⟨3⟩], []⟩ ⟨3⟩ 2 [13, 10]
      (by decide) (by decide)).2 (by decide) (by decide)⟩

/-- C1: a chunk header declaring a positive sample count with fewer than
count * 2 payload bytes delivered before the peer closed decodes to failure:
play_audio returns -1 and the chunk is never handed to spd_audio_play; the
decode failure itself leaves the record registered, and the connection is
torn down by the follow-up readability event of the closed peer, which
reports zero bytes, removes the record and closes its descriptor once. -/
theorem play_audio_truncated_payload (ok : Bool) (input line rest : List Nat)
    (st : AudioServerState) (e : TAudioFDSetElement)
    (hline : readLine input [] = some (line, rest))
    (hack : line ≠ ackLine)
    (hfields : ¬ (gStrsplit5 line).length < 5)
    (hn : 0 < strtolDec ((gStrsplit5 line).getD 4 []))
    (hshort : rest.length < (strtolDec ((gStrsplit5 line).getD 4 [])).toNat * 2)
    (hcount : st.module_data_list.count e = 1)
    (hnc : e.fd ∉ st.closed) :
    (play_audio ok input).retval = -1 ∧
    (play_audio ok input).played = none ∧
    audio_process_incoming ok st e input.length input = (true, st) ∧
    (e ∉ (audio_process_incoming ok st e 0 []).2.module_data_list ∧
     (audio_process_incoming ok st e 0 []).2.closed.count e.fd = 1) := by
  have hred := play_audio_header_branch ok input line rest hline hack hfields
  rw [if_neg (not_le.mpr hn)] at hred
  have hmin : (rest.take ((strtolDec ((gStrsplit5 line).getD 4 [])).toNat * 2)).length ≠
      (strtolDec ((gStrsplit5 line).getD 4 [])).toNat * 2 := by
    rw [List.length_take]
    omega
  rw [if_pos hmin] at hred
  have hlen0 : input.length ≠ 0 := by
    have h := readLine_ne_nil hline
    simpa [List.length_eq_zero] using h
  refine ⟨by rw [hred], by rw [hred], ?_, ?_⟩
  · simp only [audio_process_incoming, if_neg hlen0]
  · exact ⟨(disconnect_event_cleanup ok st e [] hcount hnc).2.1,
           (disconnect_event_cleanup ok st e [] hcount hnc).2.2⟩

/-- C1 witness: the header 0:16:1:16000:4 followed by CR LF declares four
samples but only two payload bytes arrive before the peer closes; the decode
fails with -1 and nothing is played, the failing event keeps the record for
descriptor 7, and the following zero-byte event removes it and closes 7
exactly once. -/
theorem play_audio_truncated_payload_witness :
    readLine ([48, 58, 49, 54, 58, 49, 58, 49, 54, 48, 48, 48, 58, 52, 13, 10] ++ [1, 2]) [] =
      some ([48, 58, 49, 54, 58, 49, 58, 49, 54, 48, 48, 48, 58, 52, 13, 10], [1, 2]) ∧
    (0 : Int) < strtolDec ((gStrsplit5 [48, 58, 49, 54, 58, 49, 58, 49, 54, 48, 48, 48, 58, 52, 13, 10]).getD 4 []) ∧
    ([1, 2] : List Nat).length <
      (strtolDec ((gStrsplit5 [48, 58, 49, 54, 58, 49, 58, 49, 54, 48, 48, 48, 58, 52, 13, 10]).getD 4 [])).toNat * 2 ∧
    ((play_audio true ([48, 58, 49, 54, 58, 49, 58, 49, 54, 48, 48, 48, 58, 52, 13, 10] ++ [1, 2])).retval = -1 ∧
     (play_audio true ([48, 58, 49, 54, 58, 49, 58, 49, 54, 48, 48, 48, 58, 52, 13, 10] ++ [1, 2])).played = none ∧
     audio_process_incoming true ⟨[⟨7⟩], []⟩ ⟨7⟩
       ([48, 58, 49, 54, 58, 49, 58, 49, 54, 48, 48, 48, 58, 52, 13, 10] ++ [1, 2]).length
       ([48, 58, 49, 54, 58, 49, 58, 49, 54, 48, 48, 48, 58, 52, 13, 10] ++ [1, 2]) =
         (true, ⟨[⟨7⟩], []⟩) ∧
     ((⟨7⟩ : TAudioFDSetElement) ∉
        (audio_process_incoming true ⟨[⟨7⟩], []⟩ ⟨7⟩ 0 []).2.module_data_list ∧
      (audio_process_incoming true ⟨[⟨7⟩], []⟩ ⟨7⟩ 0 []).2.closed.count 7 = 1)) :=
  ⟨by decide, by decide, by decide,
   play_audio_truncated_payload true
     ([48, 58, 49, 54, 58, 49, 58, 49, 54, 48, 48, 48, 58, 52, 13, 10] ++ [1, 2])
     [48, 58, 49, 54, 58, 49, 58, 49, 54, 48, 48, 48, 58, 52, 13, 10] [1, 2]
     ⟨[⟨7⟩], []⟩ ⟨7⟩ (by decide) (by decide) (by decide) (by decide) (by decide)
     (by decide) (by decide)⟩

/-- Every track play_audio hands to spd_audio_play has a positive sample
count and a payload buffer of exactly num_samples * 2 bytes (the bytes
play_audio allocated). -/
theorem play_audio_played_length (ok : Bool) (input : List Nat) (fmt : Int)
    (t : AudioTrack)
    (hp : (play_audio ok input).played = some (fmt, t)) :
    0 < t.num_samples ∧
    t.samples.length = (playAudioAllocBytes t.num_samples).toNat := by
  rcases hline : readLine input [] with _ | ⟨line, rest⟩
  · unfold play_audio at hp
    rw [hline] at hp
    simp at hp
  · by_cases hack : line = ackLine
    · unfold play_audio at hp
      rw [hline] at hp
      dsimp only at hp
      rw [if_pos hack] at hp
      simp at hp
    · by_cases h5 : (gStrsplit5 line).length < 5
      · unfold play_audio at hp
        rw [hline] at hp
        dsimp only at hp
        rw [if_neg hack, if_pos h5] at hp
        simp at hp
      · rw [play_audio_header_branch ok input line rest hline hack h5] at hp
        by_cases hn : strtolDec ((gStrsplit5 line).getD 4 []) ≤ 0
        · rw [if_pos hn] at hp
          simp at hp
        · rw [if_neg hn] at hp
          by_cases hlen : (rest.take ((strtolDec ((gStrsplit5 line).getD 4 [])).toNat * 2)).length ≠
              (strtolDec ((gStrsplit5 line).getD 4 [])).toNat * 2
          · rw [if_pos hlen] at hp
            simp at hp
          · rw [if_neg hlen] at hp
            push_neg at hn hlen
            simp only [PlayAudioOutcome.mk.injEq] at hp
            rw [Option.some_inj, Prod.mk.injEq] at hp
            obtain ⟨-, rfl⟩ := hp
            refine ⟨hn, ?_⟩
            simp only [playAudioAllocBytes]
            rw [hlen]
            omega

/-- C9: every chunk play_audio decodes with a channel-count of 2 gives the
byte-swapping loop of spd_audio_play an upper bound of
num_samples * 2 * num_channels bytes, which strictly exceeds the
num_samples * 2 bytes play_audio allocated for the buffer, so on a format
mismatch the loop runs past the allocation. -/
theorem play_audio_swap_bound_exceeds_alloc (ok : Bool) (input : List Nat)
    (fmt : Int) (t : AudioTrack)
    (hp : (play_audio ok input).played = some (fmt, t))
    (hch : t.num_channels = 2) :
    playAudioAllocBytes t.num_samples <
      swapLoopByteBound t.num_samples t.num_channels ∧
    (t.samples.length : Int) < swapLoopByteBound t.num_samples t.num_channels := by
  obtain ⟨hpos, hlen⟩ := play_audio_played_length ok input fmt t hp
  rw [hch]
  simp only [playAudioAllocBytes, swapLoopByteBound] at *
  constructor
  · omega
  · rw [hlen]
    omega

/-- C9 witness: the header 0:16:2:16000:1 followed by CR LF and its 2-byte
payload decodes to a one-sample two-channel track whose buffer holds 2 bytes,
while the swap loop bound is 4 bytes. -/
theorem play_audio_swap_bound_exceeds_alloc_witness :
    (play_audio true ([48, 58, 49, 54, 58, 50, 58, 49, 54, 48, 48, 48, 58, 49, 13, 10] ++ [7, 8])).played =
      some (0, ⟨16, 2, 16000, 1, [7, 8]⟩) ∧
    (⟨16, 2, 16000, 1, [7, 8]⟩ : AudioTrack).num_channels = 2 ∧
    (playAudioAllocBytes (⟨16, 2, 16000, 1, [7, 8]⟩ : AudioTrack).num_samples <
       swapLoopByteBound (⟨16, 2, 16000, 1, [7, 8]⟩ : AudioTrack).num_samples
         (⟨16, 2, 16000, 1, [7, 8]⟩ : AudioTrack).num_channels ∧
     ((⟨16, 2, 16000, 1, [7, 8]⟩ : AudioTrack).samples.length : Int) <
       swapLoopByteBound (⟨16, 2, 16000, 1, [7, 8]⟩ : AudioTrack).num_samples
         (⟨16, 2, 16000, 1, [7, 8]⟩ : AudioTrack).num_channels) :=
  ⟨by decide, rfl,
   play_audio_swap_bound_exceeds_alloc true
     ([48, 58, 49, 54, 58, 50, 58, 49, 54, 48, 48, 48, 58, 49, 13, 10] ++ [7, 8])
     0 ⟨16, 2, 16000, 1, [7, 8]⟩ (by decide) rfl⟩
